import Mathlib

/-!
Verification of the hero catalog cache/synchronization layer of
`backend/app/routes/heroes.py` (together with the `Hero` model and the
`API_ALIGNMENT_MAP` of `backend/app/models/models.py`), shallowly embedded
in Lean 4.

The embedding translates the Python source directly:
* raw upstream payloads are modelled structurally, with `Option` marking
  keys that may be missing from the JSON object (`dict.get` semantics);
* the local store is a list of rows keyed by the integer primary key `id`;
* the SQLAlchemy session is modelled as a pair (committed, pending), with
  `add`/`setattr` acting on the pending state, `rollback` resetting pending
  to committed, and `commit` publishing pending;
* the three Flask routes become pure functions of the store, the upstream
  HTTP oracle, and the request parameters, returning a response value plus
  the resulting store.
-/

namespace HeroHub

/-- Opaque structured blob (`powerstats`, `appearance`, `work`,
`connections` JSON objects).  The routes never inspect their contents, so a
flat association list of string fields is a faithful stand-in. -/
abbrev Blob := List (String × String)

/-- The `biography` sub-object of a raw payload.  The normalizer reads the
keys `alignment` and `full-name`; the object itself is also stored as an
opaque blob on the record. -/
structure RawBio where
  alignment : Option String
  full_name : Option String
  deriving DecidableEq, Repr

/-- The `image` sub-object of a raw payload; the normalizer reads `url`. -/
structure RawImage where
  url : Option String
  deriving DecidableEq, Repr

/-- A raw upstream payload (`RawHeroPayload`).  Each field is the value of
the corresponding JSON key when present (`dict.get` yields `None` /
`none` otherwise).  The upstream directory serves identifiers as strings. -/
structure RawPayload where
  id : Option String
  name : Option String
  biography : Option RawBio
  image : Option RawImage
  powerstats : Option Blob
  appearance : Option Blob
  work : Option Blob
  connections : Option Blob
  deriving DecidableEq, Repr

/-- A row of the `heroes` table (the canonical `HeroRecord`), mirroring the
columns of `class Hero` in `backend/app/models/models.py`; nullable columns
are `Option`. -/
structure HeroRecord where
  id : Int
  name : Option String
  full_name : Option String
  «alias» : Option String
  alignment : Option String
  image : Option String
  powerstats : Option Blob
  biography : Option RawBio
  appearance : Option Blob
  work : Option Blob
  connections : Option Blob
  deriving DecidableEq, Repr

/-- `API_ALIGNMENT_MAP` from `backend/app/models/models.py`: a Python dict
whose keys include `None`, modelled as an association list over
`Option String`. -/
def API_ALIGNMENT_MAP : List (Option String × String) :=
  [(some "good", "hero"),
   (some "bad", "villain"),
   (some "neutral", "antihero"),
   (none, "unknown"),
   (some "", "unknown")]

/-- `API_ALIGNMENT_MAP.get(raw_alignment, "unknown")`. -/
def alignmentMapGet (raw : Option String) : String :=
  (API_ALIGNMENT_MAP.lookup raw).getD "unknown"

/-- Python whitespace as stripped by `str.strip()` (ASCII subset). -/
def pyIsSpace (c : Char) : Bool :=
  c = ' ' || c = '\t' || c = '\n' || c = '\r' || c = '\x0b' || c = '\x0c'

/-- `str.strip()`: drop leading and trailing whitespace. -/
def pyStrip (s : String) : String :=
  ⟨((s.data.dropWhile pyIsSpace).reverse.dropWhile pyIsSpace).reverse⟩

/-- `str.lower()` (ASCII case folding, which covers every value the routes
compare against). -/
def pyLower (s : String) : String :=
  ⟨s.data.map Char.toLower⟩

/-- A non-empty all-digit character run parsed as a natural number. -/
def digitRunToNat? (cs : List Char) : Option Nat :=
  if cs ≠ [] ∧ cs.all Char.isDigit then
    some (cs.foldl (fun a c => a * 10 + (c.toNat - 48)) 0)
  else none

/-- Python `int(s)` on a string: optional surrounding whitespace, an
optional sign, then decimal digits; anything else raises `ValueError`
(modelled as `none`).  Digit-group underscores are not modelled. -/
def pyIntOfString (s : String) : Option Int :=
  match (pyStrip s).data with
  | '-' :: rest => (digitRunToNat? rest).map (fun n => -(n : Int))
  | '+' :: rest => (digitRunToNat? rest).map (fun n => (n : Int))
  | t => (digitRunToNat? t).map (fun n => (n : Int))

/-- `data.get("biography", {}).get("alignment")`. -/
def bioAlignment (data : RawPayload) : Option String :=
  data.biography.bind (·.alignment)

/-- `normalize_hero` from `backend/app/routes/heroes.py`.  The only raising
operation is `int(data.get("id") or 0)`: a missing or falsy (empty)
identifier falls back to `0`, while a present, non-empty, non-numeric
identifier raises `ValueError` (modelled as `Except.error`).  All other
fields are copied by `dict.get`, which is total. -/
def normalize_hero (data : RawPayload) : Except String HeroRecord := do
  let raw_alignment := bioAlignment data
  let alignment := alignmentMapGet raw_alignment
  let hero_id : Int ←
    match data.id with
    | none => pure 0
    | some s =>
      if s = "" then pure 0
      else
        match pyIntOfString s with
        | some n => pure n
        | none => throw "ValueError: invalid literal for int"
  pure {
    id := hero_id
    name := data.name
    full_name := data.biography.bind (·.full_name)
    «alias» := none
    alignment := some alignment
    image := data.image.bind (·.url)
    powerstats := data.powerstats
    biography := data.biography
    appearance := data.appearance
    work := data.work
    connections := data.connections }

/-! ## Local store and session -/

/-- The `heroes` table: a list of rows.  The primary key `id` is unique in
any state reachable through this subsystem; the operations below are
nevertheless defined on arbitrary lists, acting on the first matching row
exactly as a primary-key lookup does. -/
abbrev Store := List HeroRecord

/-- `db.session.get(Hero, i)`: primary-key lookup. -/
def storeGet (s : Store) (i : Int) : Option HeroRecord :=
  s.find? (fun h => h.id == i)

/-- Replace the (first) row whose `id` matches `r.id` by `r`: the
`for key, val in h.items(): setattr(hero, key, val)` branch of the upsert
loop, which overwrites every column of the existing row. -/
def replaceFirst : Store → HeroRecord → Store
  | [], _ => []
  | h :: t, r => if h.id == r.id then r :: t else h :: replaceFirst t r

/-- One upsert (lines 75–80 of `heroes.py`): fetch by primary key, insert a
new row when absent, otherwise overwrite all columns of the existing row. -/
def upsert (s : Store) (r : HeroRecord) : Store :=
  if (storeGet s r.id).isSome then replaceFirst s r else s ++ [r]

/-- The SQLAlchemy session: the committed database state plus the pending
state visible through the session (earlier uncommitted `add`/`setattr`
effects are visible to later `session.get` calls via autoflush). -/
structure DBSession where
  committed : Store
  pending : Store
  deriving DecidableEq, Repr

/-- One iteration of the upsert loop over a normalized record: on failure
the `except` arm runs `db.session.rollback()` (pending work is discarded),
otherwise the upsert is applied to the pending state. -/
def persistStep (fail : HeroRecord → Bool) (sess : DBSession) (h : HeroRecord) : DBSession :=
  if fail h then { sess with pending := sess.committed }
  else { sess with pending := upsert sess.pending h }

/-- The whole persistence phase of the search path (lines 73–84): loop over
the normalized records, then `db.session.commit()`; the committed state
after the final commit is the session's pending state. -/
def runSearchPersist (fail : HeroRecord → Bool) (recs : List HeroRecord) (store : Store) : Store :=
  (recs.foldl (persistStep fail) ⟨store, store⟩).pending

/-! ## Response assembly -/

/-- `f"/api/heroes/{h['id']}/image"` — the derived proxy-image locator. -/
def proxyImagePath (i : Int) : String :=
  "/api/heroes/" ++ toString i ++ "/image"

/-- One element of a response's `results` list: the serialized record with
the `proxy_image` key added. -/
structure ResultItem where
  record : HeroRecord
  proxy_image : String
  deriving DecidableEq, Repr

/-- Lines 101–102: attach the proxy-image locator to every result. -/
def attachProxy (rs : List HeroRecord) : List ResultItem :=
  rs.map (fun h => ⟨h, proxyImagePath h.id⟩)

/-- `if alignment and alignment != "all"` (Python truthiness of the
lowercased, stripped argument). -/
def alignmentFilterActive (align : String) : Bool :=
  align ≠ "" && align ≠ "all"

/-- Lines 97–98: the in-memory alignment filter
(`h.get("alignment") == alignment`). -/
def applyAlignmentFilter (align : String) (rs : List HeroRecord) : List HeroRecord :=
  if alignmentFilterActive align then rs.filter (fun h => h.alignment == some align) else rs

/-- `order_by(Hero.name.asc())`: ascending on `name`, SQL `NULL`s last
(the PostgreSQL default for ascending order). -/
def nameLe (a b : HeroRecord) : Bool :=
  match a.name, b.name with
  | none, none => true
  | none, some _ => false
  | some _, none => true
  | some x, some y => x < y || x == y

/-- The browse path's `order_by(Hero.name.asc()).all()`. -/
def sortByName (s : Store) : Store :=
  s.mergeSort nameLe

/-- The JSON body returned by the search-or-browse endpoint. -/
structure PageResponse where
  results : List ResultItem
  page : Int
  per_page : Int
  total : Nat
  total_pages : Nat
  deriving DecidableEq, Repr

/-- `max(int(request.args.get("page", 1)), 1)`. -/
def clampPage (p : Int) : Int := max p 1

/-- `max(min(int(request.args.get("per_page", 25)), 100), 1)`. -/
def clampPerPage (pp : Int) : Int := max (min pp 100) 1

/-- Lines 104–117: pagination of the final filtered sequence.  The clamped
`page` and `per_page` come from lines 56–57; `results[start:end]` on the
non-negative bounds `start = (page-1)*per_page`, `end = start + per_page`
is drop-then-take; `total_pages = (total + per_page - 1) // per_page`. -/
def paginate (pageArg perPageArg : Int) (rs : List ResultItem) : PageResponse :=
  let page := clampPage pageArg
  let per_page := clampPerPage perPageArg
  let total := rs.length
  let start := ((page - 1) * per_page).toNat
  let paginated := (rs.drop start).take per_page.toNat
  { results := paginated
    page := page
    per_page := per_page
    total := total
    total_pages := (total + per_page.toNat - 1) / per_page.toNat }

/-! ## The routes -/

/-- Outcome of the search-or-browse endpoint: either an error body with an
HTTP status, or a 200 page response; both carry the resulting store. -/
inductive SearchReply where
  | errorResp (msg : String) (status : Nat) (store : Store)
  | okResp (resp : PageResponse) (store : Store)
  deriving DecidableEq, Repr

/-- The upstream search call: `requests.get(...).json().get("results", [])`
on success, or the non-2xx status code (`resp.ok` false). -/
abbrev SearchUpstream := String → Except Nat (List RawPayload)

/-- `[normalize_hero(h) for h in api_results]`: the comprehension raises as
soon as one element raises. -/
def mapNormalize : List RawPayload → Except String (List HeroRecord)
  | [] => .ok []
  | p :: ps => do
    let r ← normalize_hero p
    let rs ← mapNormalize ps
    pure (r :: rs)

/-- `search_or_browse_heroes` (lines 46–125).  `fail` says which records'
per-record persistence attempt raises (caught by the inner `except`).  A
normalization error propagates to the outer `except` (500); it occurs
before any persistence, so the store is unchanged there. -/
def search_or_browse (store : Store) (upstream : SearchUpstream)
    (searchArg alignmentArg : String) (pageArg perPageArg : Int)
    (fail : HeroRecord → Bool) : SearchReply :=
  let query := pyStrip searchArg
  let align := pyLower (pyStrip alignmentArg)
  if query ≠ "" then
    match upstream query with
    | .error status => .errorResp "External API error" status store
    | .ok payloads =>
      match mapNormalize payloads with
      | .error _ => .errorResp "Failed to fetch heroes" 500 store
      | .ok normalized =>
        let store2 := runSearchPersist fail normalized store
        let results := applyAlignmentFilter align normalized
        .okResp (paginate pageArg perPageArg (attachProxy results)) store2
  else
    let rows := sortByName
      (if alignmentFilterActive align then store.filter (fun h => h.alignment == some align)
       else store)
    let results := applyAlignmentFilter align rows
    .okResp (paginate pageArg perPageArg (attachProxy results)) store

/-- The upstream fetch-by-id call: the raw payload on success, or the
non-2xx status code. -/
abbrev FetchUpstream := Int → Except Nat RawPayload

/-- Outcome of the get-by-id endpoint.  `calledUpstream` records whether
the handler performed the upstream HTTP request. -/
inductive HeroReply where
  | heroResp (item : ResultItem) (status : Nat) (store : Store) (calledUpstream : Bool)
  | errorResp (msg : String) (status : Nat) (store : Store) (calledUpstream : Bool)
  deriving DecidableEq, Repr

/-- `get_hero` (lines 128–150): DB first; on a miss fetch upstream,
propagate a non-2xx status verbatim, otherwise normalize, insert, commit
and return.  A raising normalization, or a commit failing on a primary-key
conflict (the normalized payload carrying an `id` that already exists),
lands in the `except` arm: rollback and 500. -/
def get_hero (store : Store) (upstream : FetchUpstream) (heroId : Int) : HeroReply :=
  match storeGet store heroId with
  | some hero => .heroResp ⟨hero, proxyImagePath hero.id⟩ 200 store false
  | none =>
    match upstream heroId with
    | .error status => .errorResp "External API error" status store true
    | .ok payload =>
      match normalize_hero payload with
      | .error _ => .errorResp "Failed to fetch hero" 500 store true
      | .ok data =>
        if (storeGet store data.id).isSome then
          .errorResp "Failed to fetch hero" 500 store true
        else
          .heroResp ⟨data, proxyImagePath data.id⟩ 200 (store ++ [data]) true

/-- The response of the binary-asset fetch `requests.get(image_url, ...)`:
status code, body bytes, and the `Content-Type` header when present. -/
structure AssetResponse where
  status : Nat
  content : List Nat
  contentType : Option String
  deriving DecidableEq, Repr

/-- Outcome of the image-proxy endpoint. -/
inductive ImageReply where
  | imageResp (content : List Nat) (contentType : String) (cacheControl : String) (store : Store)
  | errorResp (msg : String) (status : Nat) (store : Store)
  deriving DecidableEq, Repr

/-- Python truthiness of an optional string (`None` and `""` are falsy). -/
def pyTruthyOptStr : Option String → Bool
  | none => false
  | some s => s ≠ ""

/-- Lines 176–184: fetch the binary asset and build the proxied response
(502 on a non-200 status or an empty body; default content type
`image/jpeg`; long-lived cache directive). -/
def serveAsset (assetFetch : String → AssetResponse) (store : Store) (url : String) : ImageReply :=
  let proxied := assetFetch url
  if proxied.status ≠ 200 || proxied.content.isEmpty then
    .errorResp "Failed to fetch external image" 502 store
  else
    .imageResp proxied.content (proxied.contentType.getD "image/jpeg")
      "public, max-age=86400" store

/-- `get_hero_image` (lines 153–188): resolve the stored image URL
(`hero.image if hero and hero.image else None`); on a miss fetch the hero
upstream, answer 404 `No image available` when the payload has no truthy
image URL, otherwise persist the URL (updating the known row, or inserting
the normalized record for an unknown hero) and proxy the asset.  A raising
normalization or a primary-key conflict on the insert lands in the
`except` arm (500). -/
def get_hero_image (store : Store) (upstream : FetchUpstream)
    (assetFetch : String → AssetResponse) (heroId : Int) : ImageReply :=
  let hero := storeGet store heroId
  let stored_url : Option String :=
    match hero with
    | some h => if pyTruthyOptStr h.image then h.image else none
    | none => none
  match stored_url with
  | some url => serveAsset assetFetch store url
  | none =>
    match upstream heroId with
    | .error status => .errorResp "External API error" status store
    | .ok data =>
      let url? := data.image.bind (·.url)
      if ¬ pyTruthyOptStr url? then .errorResp "No image available" 404 store
      else
        let url := url?.getD ""
        match hero with
        | some h => serveAsset assetFetch (replaceFirst store { h with image := some url }) url
        | none =>
          match normalize_hero data with
          | .error _ => .errorResp "Failed to fetch hero image" 500 store
          | .ok rec =>
            if (storeGet store rec.id).isSome then
              .errorResp "Failed to fetch hero image" 500 store
            else
              serveAsset assetFetch (store ++ [rec]) url

/-! ## Concrete fixtures

Payloads and rows mirroring the repository's own test fixtures
(`backend/tests/test_routes_heroes.py`), used to instantiate the theorems
below on concrete inputs. -/

/-- The Batman search payload (upstream id `"70"`, alignment `"bad"`). -/
def pBat : RawPayload :=
  { id := some "70", name := some "Batman",
    biography := some ⟨some "bad", some "Bruce Wayne"⟩,
    image := some ⟨some "http://batman.jpg"⟩,
    powerstats := some [("intelligence", "100")],
    appearance := none, work := none, connections := none }

/-- `normalize_hero pBat`. -/
def rBat : HeroRecord :=
  { id := 70, name := some "Batman", full_name := some "Bruce Wayne",
    «alias» := none, alignment := some "villain", image := some "http://batman.jpg",
    powerstats := some [("intelligence", "100")],
    biography := some ⟨some "bad", some "Bruce Wayne"⟩,
    appearance := none, work := none, connections := none }

/-- The Superman search payload (upstream id `"644"`). -/
def pSup : RawPayload :=
  { id := some "644", name := some "Superman", biography := none,
    image := some ⟨some "http://superman.jpg"⟩,
    powerstats := some [("strength", "100")],
    appearance := none, work := none, connections := none }

/-- `normalize_hero pSup`. -/
def rSup : HeroRecord :=
  { id := 644, name := some "Superman", full_name := none,
    «alias» := none, alignment := some "unknown", image := some "http://superman.jpg",
    powerstats := some [("strength", "100")],
    biography := none, appearance := none, work := none, connections := none }

/-- A payload whose `id` key is absent (and which carries no image). -/
def pNoId : RawPayload :=
  { id := none, name := some "Ghost", biography := none, image := none,
    powerstats := none, appearance := none, work := none, connections := none }

/-- `normalize_hero pNoId`: the identifier silently defaults to `0`. -/
def rGhost : HeroRecord :=
  { id := 0, name := some "Ghost", full_name := none,
    «alias» := none, alignment := some "unknown", image := none,
    powerstats := none, biography := none, appearance := none,
    work := none, connections := none }

/-- A mocked upstream search returning the single Batman payload. -/
def upOne : SearchUpstream := fun _ => .ok [pBat]

/-- A mocked upstream search returning two payloads. -/
def upTwo : SearchUpstream := fun _ => .ok [pBat, pSup]

/-- A mocked upstream fetch-by-id answering 404 for every id. -/
def upErr404 : FetchUpstream := fun _ => .error 404

/-- A mocked upstream fetch-by-id returning a payload without an image. -/
def upNoImage : FetchUpstream := fun _ => .ok pNoId

/-- A stub asset fetch (never reached in the scenarios proved on it). -/
def assetStub : String → AssetResponse := fun _ => ⟨200, [1], some "image/png"⟩

/-- No per-record persistence failure. -/
def failNever : HeroRecord → Bool := fun _ => false

/-- Per-record persistence failure on the row with id 70 only. -/
def failBat : HeroRecord → Bool := fun r => r.id == 70

/-- The result item for the stored Batman row. -/
def itemBat : ResultItem := ⟨rBat, "/api/heroes/70/image"⟩

/-- The page response of the one-result Batman search. -/
def respBat : PageResponse := ⟨[itemBat], 1, 25, 1, 1⟩

/-- The result item for the stored Superman row. -/
def itemSup : ResultItem := ⟨rSup, "/api/heroes/644/image"⟩

/-- A re-observation of id 70 with changed mutable fields. -/
def rBat2 : HeroRecord :=
  { rBat with
    image := some "http://batman-v2.jpg"
    alignment := some "unknown"
    full_name := none }

/-! ## Helper lemmas -/

/-- Any successful normalization produces the literal record of
`normalize_hero`'s `return` statement; in particular `alias` is `None` and
`alignment` is the lookup-table image of the payload's raw alignment. -/
theorem normalize_hero_ok_fields (p : RawPayload) (r : HeroRecord)
    (h : normalize_hero p = .ok r) :
    r.«alias» = none ∧ r.alignment = some (alignmentMapGet (bioAlignment p)) := by
  unfold normalize_hero at h
  cases hid : p.id with
  | none =>
    rw [hid] at h
    simp only [bind, Except.bind, pure, Except.pure] at h
    injection h with h
    subst h
    exact ⟨rfl, rfl⟩
  | some s =>
    rw [hid] at h
    by_cases hs : s = ""
    · simp only [hs, if_pos rfl, bind, Except.bind, pure, Except.pure] at h
      injection h with h
      subst h
      exact ⟨rfl, rfl⟩
    · simp only [if_neg hs, bind, Except.bind, pure, Except.pure] at h
      cases hint : pyIntOfString s with
      | none => rw [hint] at h; cases h
      | some n =>
        rw [hint] at h
        injection h with h
        subst h
        exact ⟨rfl, rfl⟩

theorem replaceFirst_length (s : Store) (r : HeroRecord) :
    (replaceFirst s r).length = s.length := by
  induction s with
  | nil => rfl
  | cons h t ih =>
    unfold replaceFirst
    split
    · rfl
    · simp [ih]

theorem storeGet_replaceFirst_self (s : Store) (r : HeroRecord)
    (h : (storeGet s r.id).isSome) :
    storeGet (replaceFirst s r) r.id = some r := by
  induction s with
  | nil => simp [storeGet] at h
  | cons x t ih =>
    unfold replaceFirst
    by_cases hx : x.id == r.id
    · simp [hx, storeGet, List.find?]
    · simp only [hx, if_neg, Bool.false_eq_true, not_false_eq_true]
      unfold storeGet at h ⊢
      rw [List.find?_cons_of_neg _ (by simpa using hx)] at h ⊢
      exact ih h

theorem replaceFirst_replaceFirst (s : Store) (r : HeroRecord) :
    replaceFirst (replaceFirst s r) r = replaceFirst s r := by
  induction s with
  | nil => rfl
  | cons x t ih =>
    unfold replaceFirst
    by_cases hx : x.id == r.id
    · simp [hx, replaceFirst]
    · simp [hx, replaceFirst, ih]

theorem storeGet_append_self (s : Store) (r : HeroRecord)
    (h : storeGet s r.id = none) :
    storeGet (s ++ [r]) r.id = some r := by
  unfold storeGet at h ⊢
  rw [List.find?_append, h]
  simp [List.find?]

theorem replaceFirst_append_of_none (s : Store) (r : HeroRecord)
    (h : storeGet s r.id = none) :
    replaceFirst (s ++ [r]) r = s ++ [r] := by
  induction s with
  | nil => simp [replaceFirst]
  | cons x t ih =>
    unfold storeGet at h
    rw [List.find?_cons] at h
    split at h
    · cases h
    · next hx =>
      simp only [List.cons_append, replaceFirst]
      rw [if_neg (by simpa using hx)]
      show x :: replaceFirst (t ++ [r]) r = x :: (t ++ [r])
      rw [ih h]

theorem upsert_idem (s : Store) (r : HeroRecord) :
    upsert (upsert s r) r = upsert s r := by
  unfold upsert
  by_cases h : (storeGet s r.id).isSome
  · rw [if_pos h, if_pos (by rw [storeGet_replaceFirst_self s r h]; rfl),
      replaceFirst_replaceFirst]
  · rw [if_neg h, if_pos (by
      rw [storeGet_append_self s r (by simpa using Option.not_isSome_iff_eq_none.mp h)]; rfl),
      replaceFirst_append_of_none s r (by simpa using Option.not_isSome_iff_eq_none.mp h)]


theorem foldl_persistStep_committed (fail : HeroRecord → Bool) (recs : List HeroRecord)
    (c p : Store) :
    (recs.foldl (persistStep fail) ⟨c, p⟩).committed = c := by
  induction recs generalizing p with
  | nil => rfl
  | cons h t ih =>
    rw [List.foldl_cons]
    unfold persistStep
    split
    · exact ih c
    · exact ih (upsert p h)

theorem foldl_persistStep_nofail (fail : HeroRecord → Bool) (recs : List HeroRecord)
    (c p : Store) (h : ∀ y ∈ recs, fail y = false) :
    recs.foldl (persistStep fail) ⟨c, p⟩ = ⟨c, recs.foldl upsert p⟩ := by
  induction recs generalizing p with
  | nil => rfl
  | cons x t ih =>
    rw [List.foldl_cons, List.foldl_cons]
    unfold persistStep
    rw [if_neg (by simp [h x (by simp)])]
    exact ih (upsert p x) (fun y hy => h y (by simp [hy]))

theorem runSearchPersist_nofail (recs : List HeroRecord) (store : Store) :
    runSearchPersist (fun _ => false) recs store = recs.foldl upsert store := by
  unfold runSearchPersist
  rw [foldl_persistStep_nofail _ _ _ _ (fun y _ => rfl)]

theorem runSearchPersist_after_failure (fail : HeroRecord → Bool)
    (xs ys : List HeroRecord) (f : HeroRecord) (store : Store)
    (hf : fail f = true) (hys : ∀ y ∈ ys, fail y = false) :
    runSearchPersist fail (xs ++ f :: ys) store = ys.foldl upsert store := by
  unfold runSearchPersist
  rw [List.foldl_append]
  cases hS : xs.foldl (persistStep fail) ⟨store, store⟩ with
  | mk c' p' =>
    have hc : c' = store := by
      have := foldl_persistStep_committed fail xs store store
      rw [hS] at this
      exact this
    subst c'
    rw [List.foldl_cons]
    show (List.foldl (persistStep fail) (persistStep fail ⟨store, p'⟩ f) ys).pending
      = List.foldl upsert store ys
    have hstep : persistStep fail ⟨store, p'⟩ f = ⟨store, store⟩ := by
      unfold persistStep
      rw [if_pos hf]
    rw [hstep, foldl_persistStep_nofail fail ys store store hys]


/-- Every 200 response of the search-or-browse endpoint is the pagination
of some proxy-attached record sequence. -/
theorem search_or_browse_ok_shape (store : Store) (up : SearchUpstream)
    (q a : String) (pa pp : Int) (fail : HeroRecord → Bool)
    (resp : PageResponse) (st2 : Store)
    (h : search_or_browse store up q a pa pp fail = .okResp resp st2) :
    ∃ rs, resp = paginate pa pp (attachProxy rs) := by
  unfold search_or_browse at h
  dsimp only at h
  split at h
  · split at h
    · cases h
    · split at h
      · cases h
      · injection h with h1 h2
        exact ⟨_, h1.symm⟩
  · injection h with h1 h2
    exact ⟨_, h1.symm⟩


theorem clampPage_pos (pa : Int) : 1 ≤ clampPage pa := by
  unfold clampPage; omega

theorem clampPerPage_bounds (pp : Int) : 1 ≤ clampPerPage pp ∧ clampPerPage pp ≤ 100 := by
  unfold clampPerPage; omega

theorem paginate_fields (pa pp : Int) (rs : List ResultItem) :
    (paginate pa pp rs).page = clampPage pa
    ∧ (paginate pa pp rs).per_page = clampPerPage pp
    ∧ (paginate pa pp rs).results
        = (rs.drop (((paginate pa pp rs).page - 1) * (paginate pa pp rs).per_page).toNat).take
            (paginate pa pp rs).per_page.toNat
    ∧ (paginate pa pp rs).total = rs.length
    ∧ (paginate pa pp rs).total_pages = rs.length ⌈/⌉ (paginate pa pp rs).per_page.toNat := by
  refine ⟨rfl, rfl, rfl, rfl, ?_⟩
  rw [Nat.ceilDiv_eq_add_pred_div]
  rfl

theorem mem_paginate_attachProxy (pa pp : Int) (rs : List HeroRecord)
    (item : ResultItem) (h : item ∈ (paginate pa pp (attachProxy rs)).results) :
    item.proxy_image = proxyImagePath item.record.id := by
  have h1 : item ∈ attachProxy rs := by
    unfold paginate at h
    exact List.mem_of_mem_drop (List.mem_of_mem_take h)
  unfold attachProxy at h1
  obtain ⟨x, hx, hxi⟩ := List.mem_map.mp h1
  subst hxi
  rfl


/-- C1: when the requested id is already present in the local store,
get-by-id returns the stored record immediately (HTTP 200, with the derived
proxy locator), leaves the store unchanged, and performs no upstream call:
the outcome is independent of the upstream oracle and the `calledUpstream`
flag is `false`. -/
theorem C1_get_hero_local_first (store : Store) (upstream : FetchUpstream)
    (heroId : Int) (h : HeroRecord) (hfound : storeGet store heroId = some h) :
    get_hero store upstream heroId
      = .heroResp ⟨h, proxyImagePath h.id⟩ 200 store false := by
  unfold get_hero
  rw [hfound]

/-- Witness for C1: the store holding the Batman row answers id 70 locally
even against an upstream oracle that would reply 404. -/
theorem C1_witness :
    get_hero [rBat] upErr404 70
      = .heroResp ⟨rBat, proxyImagePath rBat.id⟩ 200 [rBat] false :=
  C1_get_hero_local_first [rBat] upErr404 70 rBat (by decide)

/-- C7: on a local miss with the upstream fetch-by-id failing, get-by-id
propagates the upstream status verbatim (a 404 stays a 404) with an error
body, and the store is unchanged: no row is created. -/
theorem C7_get_hero_upstream_error_propagated (store : Store)
    (upstream : FetchUpstream) (heroId : Int) (status : Nat)
    (hmiss : storeGet store heroId = none)
    (herr : upstream heroId = .error status) :
    get_hero store upstream heroId
      = .errorResp "External API error" status store true := by
  unfold get_hero
  rw [hmiss]
  dsimp only
  rw [herr]

/-- Witness for C7: an empty store and an upstream answering 404 yield a
404 error response, and the store stays empty. -/
theorem C7_witness :
    get_hero [] upErr404 99999 = .errorResp "External API error" 404 [] true :=
  C7_get_hero_upstream_error_propagated [] upErr404 99999 404 rfl rfl

/-- C10: the normalizer never populates `alias` from any payload field:
every successfully normalized record has `alias = None`. -/
theorem C10_normalize_alias_none (p : RawPayload) (r : HeroRecord)
    (h : normalize_hero p = .ok r) : r.«alias» = none :=
  (normalize_hero_ok_fields p r h).1

/-- Witness for C10 at the Batman payload. -/
theorem C10_witness : rBat.«alias» = none :=
  C10_normalize_alias_none pBat rBat rfl

/-- C3: upsert is idempotent, and an upsert whose id is already present is
a full replace keyed by id: the row count is unchanged (no duplicate row is
created) and the stored row for that id becomes exactly the new record, all
mutable fields overwritten. -/
theorem C3_upsert_idempotent_full_replace (s : Store) (r : HeroRecord) :
    upsert (upsert s r) r = upsert s r
    ∧ ((storeGet s r.id).isSome →
        (upsert s r).length = s.length ∧ storeGet (upsert s r) r.id = some r) := by
  refine ⟨upsert_idem s r, fun hs => ?_⟩
  unfold upsert
  rw [if_pos hs]
  exact ⟨replaceFirst_length s r, storeGet_replaceFirst_self s r hs⟩

/-- Witness for C3: re-upserting id 70 with changed fields overwrites the
existing row in place. -/
theorem C3_witness :
    (upsert [rBat] rBat2).length = [rBat].length
    ∧ storeGet (upsert [rBat] rBat2) rBat2.id = some rBat2 :=
  (C3_upsert_idempotent_full_replace [rBat] rBat2).2 (by decide)


/-- The alignment lookup is total and its image is the canonical four-value
enumeration. -/
theorem alignmentMapGet_canonical (o : Option String) :
    alignmentMapGet o = "hero" ∨ alignmentMapGet o = "villain"
      ∨ alignmentMapGet o = "antihero" ∨ alignmentMapGet o = "unknown" := by
  unfold alignmentMapGet API_ALIGNMENT_MAP
  simp only [List.lookup]
  repeat' split
  all_goals simp_all

/-- C2: every successfully normalized record's alignment is the fixed
lookup-table image of the payload's raw alignment and is one of the four
canonical values; any raw value outside the table (and the missing/empty
cases) yields `unknown`, and the upstream value `bad` yields `villain`.
The mapping itself never raises: the only failure of `normalize_hero` is
the identifier parse. -/
theorem C2_normalize_alignment_canonical (p : RawPayload) (r : HeroRecord)
    (h : normalize_hero p = .ok r) :
    (r.alignment = some "hero" ∨ r.alignment = some "villain"
      ∨ r.alignment = some "antihero" ∨ r.alignment = some "unknown")
    ∧ r.alignment = some (alignmentMapGet (bioAlignment p))
    ∧ ((API_ALIGNMENT_MAP.lookup (bioAlignment p)).isNone → r.alignment = some "unknown")
    ∧ ((bioAlignment p = none ∨ bioAlignment p = some "") → r.alignment = some "unknown")
    ∧ (bioAlignment p = some "bad" → r.alignment = some "villain") := by
  obtain ⟨-, halign⟩ := normalize_hero_ok_fields p r h
  refine ⟨?_, halign, ?_, ?_, ?_⟩
  · rw [halign]
    rcases alignmentMapGet_canonical (bioAlignment p) with h1 | h1 | h1 | h1 <;>
      rw [h1] <;> simp
  · intro hn
    rw [halign]
    unfold alignmentMapGet
    rw [Option.isNone_iff_eq_none.mp hn]
    rfl
  · rintro (hb | hb) <;> rw [halign, hb] <;> decide
  · intro hb
    rw [halign, hb]
    decide

/-- Witness for C2 at the Batman payload, whose raw alignment is `bad` and
whose record's alignment is `villain`. -/
theorem C2_witness :
    (rBat.alignment = some "hero" ∨ rBat.alignment = some "villain"
      ∨ rBat.alignment = some "antihero" ∨ rBat.alignment = some "unknown")
    ∧ rBat.alignment = some (alignmentMapGet (bioAlignment pBat))
    ∧ ((API_ALIGNMENT_MAP.lookup (bioAlignment pBat)).isNone → rBat.alignment = some "unknown")
    ∧ ((bioAlignment pBat = none ∨ bioAlignment pBat = some "") → rBat.alignment = some "unknown")
    ∧ (bioAlignment pBat = some "bad" → rBat.alignment = some "villain") :=
  C2_normalize_alignment_canonical pBat rBat rfl


/-- C5 counterexample: a payload with no identifier field normalizes
successfully (with id 0) instead of failing with `MalformedPayload`:
`int(data.get(\x22id\x22) or 0)` silently defaults. -/
theorem C5_counterexample :
    pNoId.id = none ∧ normalize_hero pNoId = .ok rGhost ∧ rGhost.id = 0 :=
  ⟨rfl, rfl, rfl⟩

/-- C5 (amended): a present, non-empty, non-numeric identifier makes
normalize fail; an absent or empty identifier silently defaults to id 0
and succeeds; a parseable identifier succeeds with that id - missing
optional fields never cause a failure. -/
theorem C5_normalize_identifier_amended (p : RawPayload) :
    ((p.id = none ∨ p.id = some "") → ∃ r, normalize_hero p = .ok r ∧ r.id = 0)
    ∧ (∀ s, p.id = some s → s ≠ "" → pyIntOfString s = none →
        normalize_hero p = .error "ValueError: invalid literal for int")
    ∧ (∀ s n, p.id = some s → pyIntOfString s = some n →
        ∃ r, normalize_hero p = .ok r ∧ r.id = n) := by
  refine ⟨?_, ?_, ?_⟩
  · rintro (h | h) <;>
    · unfold normalize_hero
      rw [h]
      exact ⟨_, rfl, rfl⟩
  · intro s hs hne hint
    unfold normalize_hero
    rw [hs]
    dsimp only
    rw [if_neg hne, hint]
    rfl
  · intro s n hs hint
    have hne : s ≠ "" := by
      rintro rfl
      rw [show pyIntOfString "" = none from rfl] at hint
      cases hint
    unfold normalize_hero
    rw [hs]
    dsimp only
    rw [if_neg hne, hint]
    exact ⟨_, rfl, rfl⟩

/-- Witness for C5 (amended) at the identifier-less payload. -/
theorem C5_witness :
    ∃ r, normalize_hero pNoId = .ok r ∧ r.id = 0 :=
  (C5_normalize_identifier_amended pNoId).1 (Or.inl rfl)


/-- C4: a per-record persistence failure during a search batch is caught:
the endpoint still returns 200 with exactly the same response (so the
failing record is not removed from the returned result set and no error is
escalated), and the upserts of the records after the failure still reach
the committed store.  (The rollback in the `except` arm discards the
session's earlier pending work, so the committed store is the fold of the
post-failure suffix.) -/
theorem C4_search_per_record_failure_isolated
    (store : Store) (upstream : SearchUpstream) (q a : String) (pa pp : Int)
    (fail : HeroRecord → Bool) (payloads : List RawPayload)
    (normalized xs ys : List HeroRecord) (f : HeroRecord)
    (hq : pyStrip q ≠ "")
    (hup : upstream (pyStrip q) = .ok payloads)
    (hnorm : mapNormalize payloads = .ok normalized)
    (hsplit : normalized = xs ++ f :: ys)
    (hf : fail f = true)
    (hys : ∀ y ∈ ys, fail y = false) :
    ∃ resp : PageResponse,
      search_or_browse store upstream q a pa pp fail
        = .okResp resp (ys.foldl upsert store)
      ∧ search_or_browse store upstream q a pa pp (fun _ => false)
        = .okResp resp (normalized.foldl upsert store) := by
  have hpersist : runSearchPersist fail normalized store = ys.foldl upsert store := by
    rw [hsplit]
    exact runSearchPersist_after_failure fail xs ys f store hf hys
  refine ⟨paginate pa pp (attachProxy (applyAlignmentFilter (pyLower (pyStrip a)) normalized)),
    ?_, ?_⟩
  · unfold search_or_browse
    dsimp only
    rw [if_pos hq, hup]
    dsimp only
    rw [hnorm]
    dsimp only
    rw [hpersist]
  · unfold search_or_browse
    dsimp only
    rw [if_pos hq, hup]
    dsimp only
    rw [hnorm]
    dsimp only
    rw [runSearchPersist_nofail]

/-- Witness for C4: with two normalized records and persistence failing on
the first, the response equals the no-failure response while only the
second row is committed. -/
theorem C4_witness :
    ∃ resp : PageResponse,
      search_or_browse [] upTwo "batman" "" 1 25 failBat
        = .okResp resp (List.foldl upsert [] [rSup])
      ∧ search_or_browse [] upTwo "batman" "" 1 25 (fun _ => false)
        = .okResp resp (List.foldl upsert [] [rBat, rSup]) :=
  C4_search_per_record_failure_isolated [] upTwo "batman" "" 1 25 failBat
    [pBat, pSup] [rBat, rSup] [] [rSup] rBat (by decide) rfl rfl rfl rfl (by decide)


/-- C6: every 200 response of search-or-browse has `page` clamped to at
least 1 and `per_page` clamped into [1, 100], its `results` are the
half-open slice [(page-1)*per_page, page*per_page) of the final filtered
sequence, `total` is that sequence's pre-slice length, and `total_pages`
is the ceiling of total / per_page; concretely, two results with
`per_page = 1` give one distinct result on each of pages 1 and 2 with
`total_pages = 2`. -/
theorem C6_pagination :
    (∀ (store : Store) (up : SearchUpstream) (q a : String) (pa pp : Int)
       (fail : HeroRecord → Bool) (resp : PageResponse) (st2 : Store),
       search_or_browse store up q a pa pp fail = .okResp resp st2 →
       resp.page = clampPage pa ∧ 1 ≤ resp.page
       ∧ resp.per_page = clampPerPage pp ∧ 1 ≤ resp.per_page ∧ resp.per_page ≤ 100
       ∧ ∃ rs : List ResultItem,
           resp.results
             = (rs.drop ((resp.page - 1) * resp.per_page).toNat).take resp.per_page.toNat
           ∧ resp.total = rs.length
           ∧ resp.total_pages = rs.length ⌈/⌉ resp.per_page.toNat)
    ∧ (search_or_browse [] upTwo "batman" "" 1 1 failNever
         = .okResp ⟨[itemBat], 1, 1, 2, 2⟩ [rBat, rSup]
       ∧ search_or_browse [] upTwo "batman" "" 2 1 failNever
         = .okResp ⟨[itemSup], 2, 1, 2, 2⟩ [rBat, rSup]
       ∧ [itemBat] ≠ [itemSup]) := by
  constructor
  · intro store up q a pa pp fail resp st2 h
    obtain ⟨rs0, rfl⟩ := search_or_browse_ok_shape _ _ _ _ _ _ _ _ _ h
    obtain ⟨h1, h2, h3, h4, h5⟩ := paginate_fields pa pp (attachProxy rs0)
    refine ⟨h1, ?_, h2, ?_, ?_, attachProxy rs0, h3, h4, h5⟩
    · rw [h1]; exact clampPage_pos pa
    · rw [h2]; exact (clampPerPage_bounds pp).1
    · rw [h2]; exact (clampPerPage_bounds pp).2
  · exact ⟨by decide, by decide, by decide⟩

/-- Witness for C6: the general pagination bundle instantiated at the
concrete two-result search on page 1. -/
theorem C6_witness :
    (⟨[itemBat], 1, 1, 2, 2⟩ : PageResponse).page = clampPage 1
    ∧ 1 ≤ (⟨[itemBat], 1, 1, 2, 2⟩ : PageResponse).page
    ∧ (⟨[itemBat], 1, 1, 2, 2⟩ : PageResponse).per_page = clampPerPage 1
    ∧ 1 ≤ (⟨[itemBat], 1, 1, 2, 2⟩ : PageResponse).per_page
    ∧ (⟨[itemBat], 1, 1, 2, 2⟩ : PageResponse).per_page ≤ 100
    ∧ ∃ rs : List ResultItem,
        (⟨[itemBat], 1, 1, 2, 2⟩ : PageResponse).results
          = (rs.drop (((⟨[itemBat], 1, 1, 2, 2⟩ : PageResponse).page - 1)
              * (⟨[itemBat], 1, 1, 2, 2⟩ : PageResponse).per_page).toNat).take
              (⟨[itemBat], 1, 1, 2, 2⟩ : PageResponse).per_page.toNat
        ∧ (⟨[itemBat], 1, 1, 2, 2⟩ : PageResponse).total = rs.length
        ∧ (⟨[itemBat], 1, 1, 2, 2⟩ : PageResponse).total_pages
            = rs.length ⌈/⌉ (⟨[itemBat], 1, 1, 2, 2⟩ : PageResponse).per_page.toNat :=
  C6_pagination.1 [] upTwo "batman" "" 1 1 failNever ⟨[itemBat], 1, 1, 2, 2⟩ [rBat, rSup]
    (by decide)

/-- C9 (amended): every result item of any 200 search-or-browse response
carries the derived, stateless proxy-image locator, the deterministic
function of its id `/api/heroes/{id}/image` (the mounted path of the image
endpoint; the spec writes it without the `/api` prefix). -/
theorem C9_results_carry_proxy_locator (store : Store) (up : SearchUpstream)
    (q a : String) (pa pp : Int) (fail : HeroRecord → Bool)
    (resp : PageResponse) (st2 : Store)
    (h : search_or_browse store up q a pa pp fail = .okResp resp st2)
    (item : ResultItem) (hmem : item ∈ resp.results) :
    item.proxy_image = proxyImagePath item.record.id := by
  obtain ⟨rs0, rfl⟩ := search_or_browse_ok_shape _ _ _ _ _ _ _ _ _ h
  exact mem_paginate_attachProxy pa pp rs0 item hmem

/-- C9 counterexample: the locator the code attaches is
`/api/heroes/70/image`, not the claim's literal `/heroes/70/image`. -/
theorem C9_counterexample :
    search_or_browse [] upOne "batman" "" 1 25 failNever = .okResp respBat [rBat]
    ∧ itemBat ∈ respBat.results
    ∧ itemBat.record.id = 70
    ∧ itemBat.proxy_image = "/api/heroes/70/image"
    ∧ itemBat.proxy_image ≠ "/heroes/70/image" :=
  ⟨by decide, by decide, rfl, rfl, by decide⟩

/-- Witness for C9 (amended) at the one-result Batman search. -/
theorem C9_witness :
    itemBat.proxy_image = proxyImagePath itemBat.record.id :=
  C9_results_carry_proxy_locator [] upOne "batman" "" 1 25 failNever respBat [rBat]
    (by decide) itemBat (by decide)


/-- C8: when no image URL is resolvable at all - nothing truthy stored
locally and the upstream fetch-by-id payload carrying no truthy image
URL - the image proxy answers 404 `No image available` and leaves the
store unchanged. -/
theorem C8_image_unresolvable_404 (store : Store) (upstream : FetchUpstream)
    (assetFetch : String → AssetResponse) (heroId : Int) (data : RawPayload)
    (hstored : ∀ h, storeGet store heroId = some h → pyTruthyOptStr h.image = false)
    (hup : upstream heroId = .ok data)
    (hnoimg : pyTruthyOptStr (data.image.bind (·.url)) = false) :
    get_hero_image store upstream assetFetch heroId
      = .errorResp "No image available" 404 store := by
  unfold get_hero_image
  dsimp only
  cases hh : storeGet store heroId with
  | none =>
    dsimp only
    rw [hup]
    dsimp only
    rw [if_pos (by simp [hnoimg])]
  | some h =>
    dsimp only
    rw [if_neg (by simp [hstored h hh])]
    dsimp only
    rw [hup]
    dsimp only
    rw [if_pos (by simp [hnoimg])]

/-- Witness for C8: empty store and an upstream payload without an image
URL. -/
theorem C8_witness :
    get_hero_image [] upNoImage assetStub 123
      = .errorResp "No image available" 404 [] :=
  C8_image_unresolvable_404 [] upNoImage assetStub 123 pNoId
    (fun _ hh => Option.noConfusion hh) rfl rfl

end HeroHub
